import Mathlib

/-!
Shallow embedding of the hardened fetch proxy in `api/fetch.js` of the
reSOURCERY repository: the address classifier (`parseIP`, `isPrivateIPv4`,
`isPrivateIPv6`, `isPrivateHost`), the target validator (`validateTarget`),
the pinned transport option builder (`pinnedRequest`) and the redirect /
streaming handler (`handler`).

Strings are modelled as Lean `String` and, internally, `List Char`.
JavaScript's `Number(s)` coercion is modelled for the canonical decimal
integer forms that the proxy ever sees (empty string ↦ 0, digit strings,
optionally `-`-signed; anything else ↦ NaN, encoded as `none`).
JavaScript's `toLowerCase` is modelled on ASCII.  External Node built-ins
(the WHATWG URL parser, the DNS resolver, the network) are parameters of the
model: the handler is a pure function of those oracles.  Real-time behaviour
(connect/idle/absolute timers) is outside the model.
-/

/-- JS digit class `\d`, i.e. `[0-9]`, via code points. -/
def isDigitC (c : Char) : Bool := 48 ≤ c.toNat && c.toNat ≤ 57

/-- ASCII lower-casing of one character (JS `toLowerCase` on ASCII input). -/
def lowerChar (c : Char) : Char :=
  if 65 ≤ c.toNat ∧ c.toNat ≤ 90 then Char.ofNat (c.toNat + 32) else c

/-- ASCII lower-casing of a character list (JS `toLowerCase`). -/
def toLowerL (l : List Char) : List Char := l.map lowerChar

/-- JS `s.replace(/^\[|\]$/g, '')`: strip one leading `[` and one
trailing `]`. -/
def stripBracketsL (l : List Char) : List Char :=
  let l1 := if l.head? = some '[' then l.tail else l
  if l1.getLast? = some ']' then l1.dropLast else l1

/-- JS `s.split('.')` (every occurrence, empty pieces kept). -/
def splitDot : List Char → List (List Char)
  | [] => [[]]
  | c :: rest =>
    if c = '.' then [] :: splitDot rest
    else
      match splitDot rest with
      | g :: gs => (c :: g) :: gs
      | [] => [[c]]

/-- JS `s.split(':')` (every occurrence, empty pieces kept). -/
def splitColon : List Char → List (List Char)
  | [] => [[]]
  | c :: rest =>
    if c = ':' then [] :: splitColon rest
    else
      match splitColon rest with
      | g :: gs => (c :: g) :: gs
      | [] => [[c]]

/-- Decimal value of a digit list. -/
def decValL (l : List Char) : Nat :=
  l.foldl (fun acc c => 10 * acc + (c.toNat - 48)) 0

/-- Hex digit class `[0-9a-f]` with the `/i` flag, i.e. also `A-F`. -/
def isHexC (c : Char) : Bool :=
  isDigitC c || (97 ≤ (lowerChar c).toNat && (lowerChar c).toNat ≤ 102)

/-- Value of one hex digit (case-insensitive, as JS `parseInt(_, 16)`). -/
def hexDigitVal (c : Char) : Nat :=
  if isDigitC c then c.toNat - 48 else (lowerChar c).toNat - 87

/-- Hex value of a hex-digit list (JS `parseInt(s, 16)` on a valid input). -/
def hexValL (l : List Char) : Nat :=
  l.foldl (fun acc c => 16 * acc + hexDigitVal c) 0

/-- Decimal rendering of a byte value (JS template `${n}` for `n ≤ 255`). -/
def byteDigits (n : Nat) : List Char :=
  if n < 10 then [Char.ofNat (48 + n)]
  else if n < 100 then [Char.ofNat (48 + n / 10), Char.ofNat (48 + n % 10)]
  else [Char.ofNat (48 + n / 100), Char.ofNat (48 + n / 10 % 10), Char.ofNat (48 + n % 10)]

/-- JS `Number(s)` restricted to the canonical integer forms the proxy
meets: `""` ↦ `0`, decimal digit strings and `-`-signed digit strings to
their value, everything else to NaN (`none`). -/
def jsNumL (l : List Char) : Option Int :=
  if l = [] then some 0
  else if l.all isDigitC then some ((decValL l : Nat) : Int)
  else
    match l with
    | '-' :: rest =>
      if rest ≠ [] && rest.all isDigitC then some (-((decValL rest : Nat) : Int)) else none
    | _ => none

/-- One group of the IPv4 regex `\d{1,3}`. -/
def okOctB (g : List Char) : Bool :=
  decide (g ≠ []) && decide (g.length ≤ 3) && g.all isDigitC

/-- Match of `/^\d{1,3}\.\d{1,3}\.\d{1,3}\.\d{1,3}$/`. -/
def isDottedQuadL (l : List Char) : Bool :=
  let gs := splitDot l
  gs.length == 4 && gs.all okOctB

/-- One group of the mapped-hex regex `[0-9a-f]{1,4}` (with `/i`). -/
def okHexB (g : List Char) : Bool :=
  decide (g ≠ []) && decide (g.length ≤ 4) && g.all isHexC

/-- Case-insensitive test that the string starts with `::ffff:`. -/
def ciMapped7 (l : List Char) : Bool :=
  toLowerL (l.take 7) = "::ffff:".data

/-- The dotted quad encoded by the two hex groups of an IPv4-mapped IPv6
literal (`const a = (hi >> 8) & 0xff; ...` in `parseIP`). -/
def hexQuad (g1 g2 : List Char) : List Char :=
  let hi := hexValL g1
  let lo := hexValL g2
  byteDigits (hi / 256 % 256) ++ '.' ::
    (byteDigits (hi % 256) ++ '.' ::
      (byteDigits (lo / 256 % 256) ++ '.' :: byteDigits (lo % 256)))

/-- Match of `/^::ffff:(\d{1,3}\.\d{1,3}\.\d{1,3}\.\d{1,3})$/i`, returning the
captured dotted quad. -/
def mappedDotted (l : List Char) : Option (List Char) :=
  if ciMapped7 l && isDottedQuadL (l.drop 7) then some (l.drop 7) else none

/-- Match of `/^::ffff:([0-9a-f]{1,4}):([0-9a-f]{1,4})$/i`, returning the
dotted quad decoded from the two hex groups. -/
def mappedHex (l : List Char) : Option (List Char) :=
  if ciMapped7 l then
    match splitColon (l.drop 7) with
    | [g1, g2] => if okHexB g1 && okHexB g2 then some (hexQuad g1 g2) else none
    | _ => none
  else none

/-- An IP literal as produced by `parseIP`: `{ version, address }`. -/
structure IPLitL where
  version : Nat
  address : List Char
deriving DecidableEq, Repr

/-- `parseIP` from `api/fetch.js`, on character lists. -/
def parseIPL (hostname : List Char) : Option IPLitL :=
  let normalized := stripBracketsL hostname
  match mappedDotted normalized with
  | some quad => some ⟨4, quad⟩
  | none =>
    match mappedHex normalized with
    | some quad => some ⟨4, quad⟩
    | none =>
      if isDottedQuadL normalized then some ⟨4, normalized⟩
      else if normalized.any (fun c => c = ':') then some ⟨6, toLowerL normalized⟩
      else none

/-- An IP literal with a `String` address. -/
structure IPLit where
  version : Nat
  address : String
deriving DecidableEq, Repr

/-- `parseIP` from `api/fetch.js`. -/
def parseIP (hostname : String) : Option IPLit :=
  (parseIPL hostname.data).map (fun p => ⟨p.version, String.mk p.address⟩)

/-- Guard of `isPrivateIPv4`: a split part is malformed or out of 0–255
(`p < 0 || p > 255 || !Number.isFinite(p)`; NaN fails only the last test). -/
def badOctet (p : Option Int) : Bool :=
  match p with
  | none => true
  | some v => decide (v < 0) || decide (v > 255)

/-- The private/reserved range test of `isPrivateIPv4` on the first two
octets. -/
def privRangeB (a b : Int) : Bool :=
  decide (a = 127) || decide (a = 10) ||
  (decide (a = 172) && decide (16 ≤ b) && decide (b ≤ 31)) ||
  (decide (a = 192) && decide (b = 168)) ||
  (decide (a = 169) && decide (b = 254)) ||
  decide (a = 0) ||
  (decide (a = 100) && decide (64 ≤ b) && decide (b ≤ 127)) ||
  (decide (a = 198) && (decide (b = 18) || decide (b = 19))) ||
  decide (224 ≤ a)

/-- `isPrivateIPv4` from `api/fetch.js`, on character lists.  The guard
(`parts.length !== 4 || parts.some(...)`) guarantees the `getD` defaults in
the range test are never used. -/
def isPrivateIPv4L (address : List Char) : Bool :=
  let parts := (splitDot address).map jsNumL
  if parts.length ≠ 4 || parts.any badOctet then true
  else
    let a := (parts.getD 0 none).getD 0
    let b := (parts.getD 1 none).getD 0
    privRangeB a b

/-- `isPrivateIPv4` from `api/fetch.js`. -/
def isPrivateIPv4 (address : String) : Bool := isPrivateIPv4L address.data

/-- The `/^fe[89ab]/i` test of `isPrivateIPv6`. -/
def feLinkLocal (l : List Char) : Bool :=
  match l with
  | c1 :: c2 :: c3 :: _ =>
    (lowerChar c1 = 'f' : Bool) && (lowerChar c2 = 'e' : Bool) &&
      ((lowerChar c3 = '8' : Bool) || (lowerChar c3 = '9' : Bool) ||
        (lowerChar c3 = 'a' : Bool) || (lowerChar c3 = 'b' : Bool))
  | _ => false

/-- Case-sensitive list version of JS `String.prototype.startsWith`. -/
def startsWithL (l p : List Char) : Bool := l.take p.length == p

/-- `isPrivateIPv6` from `api/fetch.js`, on character lists. -/
def isPrivateIPv6L (address : List Char) : Bool :=
  address == "::1".data || address == "::".data ||
  startsWithL address "fc".data || startsWithL address "fd".data ||
  feLinkLocal address ||
  startsWithL address "ff".data ||
  startsWithL address "::ffff:".data

/-- `isPrivateIPv6` from `api/fetch.js`. -/
def isPrivateIPv6 (address : String) : Bool := isPrivateIPv6L address.data

/-- The classification `isPrivateHost` performs after normalizing its
argument (localhost check, literal parse, family dispatch). -/
def privHostCore (normalized : List Char) : Bool :=
  if normalized = "localhost".data then true
  else
    match parseIPL normalized with
    | some ip => if ip.version = 4 then isPrivateIPv4L ip.address else isPrivateIPv6L ip.address
    | none => false

/-- `isPrivateHost` from `api/fetch.js`, on character lists: fail closed on a
missing hostname, then strip one bracket layer and lower-case before
classifying. -/
def privHostL (hostname : List Char) : Bool :=
  if hostname = [] then true
  else privHostCore (toLowerL (stripBracketsL hostname))

/-- `isPrivateHost` from `api/fetch.js`. -/
def isPrivateHost (hostname : String) : Bool := privHostL hostname.data

/-- An octet group of a dotted IPv4 literal as the regex accepts it:
nonempty, at most three characters, all digits. -/
def okOct (g : List Char) : Prop :=
  g ≠ [] ∧ g.length ≤ 3 ∧ ∀ c ∈ g, isDigitC c = true

/-- The private/reserved ranges of `isPrivateIPv4` as a predicate on the
numeric values of the first two octets. -/
def privPair (a b : Nat) : Prop :=
  a = 127 ∨ a = 10 ∨ (a = 172 ∧ 16 ≤ b ∧ b ≤ 31) ∨ (a = 192 ∧ b = 168) ∨
  (a = 169 ∧ b = 254) ∨ a = 0 ∨ (a = 100 ∧ 64 ≤ b ∧ b ≤ 127) ∨
  (a = 198 ∧ (b = 18 ∨ b = 19)) ∨ 224 ≤ a

/-! ## Target validator (`validateTarget`) -/

/-- Result of one `resolve4`/`resolve6` call of the DNS oracle: the address
list on success, or the rejected error code (`err.code`) on failure. -/
inductive DnsRes where
  | ok (addrs : List String)
  | err (code : String)
deriving DecidableEq, Repr

/-- The two DNS answers (A and AAAA) the resolver would give for one
hostname. -/
structure DnsPair where
  r4 : DnsRes
  r6 : DnsRes
deriving DecidableEq, Repr

/-- The resolver's not-found/no-data condition
(`err.code === 'ENODATA' || err.code === 'ENOTFOUND'`). -/
def softDnsErr (code : String) : Bool := code == "ENODATA" || code == "ENOTFOUND"

/-- Outcome of `validateTarget`: an error response already sent (status and
JSON error message), or a pinned address. -/
inductive Validation where
  | rejected (status : Nat) (msg : String)
  | pinned (ip : String) (family : Nat)
deriving DecidableEq, Repr

/-- The HTTP status of a rejection, `none` for a pinned success. -/
def vstatus : Validation → Option Nat
  | .rejected s _ => some s
  | .pinned _ _ => none

/-- A parsed WHATWG URL as the Node `URL` class exposes it.  `port = 0`
encodes the empty `url.port` string of a default port (so that JS
`Number(url.port) || fallback` is `if port ≠ 0 then port else fallback`).
`href` is `url.toString()`. -/
structure URLRec where
  protocol : String
  hostname : String
  host : String
  port : Nat
  pathname : String
  search : String
  href : String
deriving DecidableEq, Repr

/-- The IPv6 branch of the DNS phase of `validateTarget` (the `resolve6`
try/catch plus the final `!pinnedIP` check). -/
def v6Phase (hostname : String) (pin4 : Option String) (r6 : DnsRes) : Validation :=
  match r6 with
  | .ok l6 =>
    if l6.any (fun a => isPrivateIPv6L (toLowerL a.data)) then
      .rejected 403 "Private network addresses are not allowed"
    else
      match pin4 with
      | some ip => .pinned ip 4
      | none =>
        match l6.head? with
        | some ip6 => .pinned ip6 6
        | none => .rejected 400 ("Could not resolve hostname: " ++ hostname)
  | .err code =>
    if softDnsErr code = false && pin4 = none then
      .rejected 400 ("DNS resolution failed: " ++ code)
    else
      match pin4 with
      | some ip => .pinned ip 4
      | none => .rejected 400 ("Could not resolve hostname: " ++ hostname)

/-- The DNS phase of `validateTarget` for a non-literal hostname: the
`resolve4` try/catch, then the IPv6 branch. -/
def resolveAndValidate (hostname : String) (d : DnsPair) : Validation :=
  match d.r4 with
  | .ok l4 =>
    if l4.any isPrivateIPv4 then
      .rejected 403 "Private network addresses are not allowed"
    else v6Phase hostname l4.head? d.r6
  | .err code =>
    if softDnsErr code = false then
      .rejected 400 ("DNS resolution failed: " ++ code)
    else v6Phase hostname none d.r6

/-- `validateTarget` from `api/fetch.js`, with the DNS resolver as an
oracle giving the A/AAAA answers for the target's hostname. -/
def validateTarget (target : URLRec) (d : DnsPair) : Validation :=
  if (target.protocol == "http:" || target.protocol == "https:") = false then
    .rejected 400 "Only HTTP(S) URLs are supported"
  else if isPrivateHost target.hostname then
    .rejected 403 "Private network addresses are not allowed"
  else
    match parseIP target.hostname with
    | some ip => .pinned ip.address ip.version
    | none => resolveAndValidate target.hostname d

/-- Does `validateTarget` get past the protocol/literal stage into DNS
resolution for this target? -/
def hostReachesDns (target : URLRec) : Bool :=
  (target.protocol == "http:" || target.protocol == "https:") &&
    !isPrivateHost target.hostname && (parseIP target.hostname).isNone

/-- Does the `resolve4` phase fall through (neither a private-address
rejection nor a hard DNS failure)? -/
def v4PhaseClear (d : DnsPair) : Bool :=
  match d.r4 with
  | .ok l4 => !l4.any isPrivateIPv4
  | .err code => softDnsErr code

/-- The addresses the A lookup actually returned during the run of
`validateTarget` (empty when that lookup is never reached or fails). -/
def runResolved4 (target : URLRec) (d : DnsPair) : List String :=
  if hostReachesDns target then
    match d.r4 with
    | .ok l4 => l4
    | .err _ => []
  else []

/-- The addresses the AAAA lookup actually returned during the run of
`validateTarget` (empty when control never reaches `resolve6`). -/
def runResolved6 (target : URLRec) (d : DnsPair) : List String :=
  if hostReachesDns target && v4PhaseClear d then
    match d.r6 with
    | .ok l6 => l6
    | .err _ => []
  else []

/-! ## Pinned transport (`pinnedRequest`) -/

/-- The options object `pinnedRequest` hands to `http(s).request`. -/
structure ReqOptions where
  method : String
  hostname : String
  port : Nat
  path : String
  hostHeader : String
  userAgent : String
deriving DecidableEq, Repr

/-- A built pinned request: its options plus the installed `lookup`
callback (hostname argument ↦ address and family it reports). -/
structure PinnedReq where
  options : ReqOptions
  lookup : String → String × Nat

/-- `pinnedRequest` from `api/fetch.js` up to the I/O boundary: parse the
URL (`new URL(urlString)`, via the parser oracle) and build the request
options and the pinned `lookup` callback. -/
def pinnedRequest (parseURL : String → Option URLRec) (urlString : String)
    (pinnedIP : String) (pinnedFamily : Nat) : Option PinnedReq :=
  match parseURL urlString with
  | none => none
  | some url =>
    let isHTTPS := url.protocol == "https:"
    some
      { options :=
          { method := "GET"
            hostname := url.hostname
            port := if url.port ≠ 0 then url.port else (if isHTTPS then 443 else 80)
            path := url.pathname ++ url.search
            hostHeader := url.host
            userAgent := "reSOURCERY/2.4 (+https://resourcery.app)" }
        lookup := fun _hostname => (pinnedIP, pinnedFamily) }

/-! ## Handler (`handler`): redirect walker and streaming phase -/

/-- Constant `MAX_CONTENT_LENGTH = 2 * 1024 * 1024 * 1024`. -/
def MAX_CONTENT_LENGTH : Nat := 2 * 1024 * 1024 * 1024

/-- Constant `MAX_REDIRECTS = 5`. -/
def MAX_REDIRECTS : Nat := 5

/-- One upstream response as the handler reads it: status, the headers it
looks at, and the total body size in bytes (the stream's content, abstracted
to its length). -/
structure UpstreamOk where
  status : Nat
  location : Option String
  contentLength : Option String
  contentType : Option String
  bodyBytes : Nat
deriving DecidableEq, Repr

/-- What the network oracle yields for a request to a URL: a response, or a
connection failure with the error message (caught by the handler's
try/catch). -/
inductive Upstream where
  | ok (r : UpstreamOk)
  | unreachable (msg : String)
deriving DecidableEq, Repr

/-- One network request the handler performed: the URL it was issued for and
the pinned address/family it was sent to. -/
structure ReqEntry where
  url : String
  ip : String
  family : Nat
deriving DecidableEq, Repr

/-- The observable outcome of the handler: response status, the JSON error
message (`none` for a streamed success), the forwarded `Content-Type` /
`Content-Length` headers, the number of body bytes relayed to the caller,
and the trace of upstream requests performed. -/
structure ProxyResult where
  status : Nat
  errorMsg : Option String
  contentType : Option String
  contentLength : Option String
  relayedBytes : Nat
  requests : List ReqEntry
deriving DecidableEq, Repr

/-- An error response: JSON body, nothing relayed. -/
def errResult (trace : List ReqEntry) (status : Nat) (msg : String) : ProxyResult :=
  { status := status, errorMsg := some msg, contentType := none, contentLength := none
    relayedBytes := 0, requests := trace }

/-- `Number(response.headers['content-length'] || 0)`: a missing or empty
header is `0`; otherwise the JS numeric coercion (NaN as `none`). -/
def jsContentLength (h : Option String) : Option Int :=
  match h with
  | none => some 0
  | some s => if s = "" then some 0 else jsNumL s.data

/-- JS `x > n` where `x` may be NaN: NaN compares false. -/
def jsGtN (x : Option Int) (n : Nat) : Bool :=
  match x with
  | none => false
  | some v => decide ((n : Int) < v)

/-- The final-response phase of the handler: non-2xx passthrough, the
declared-size gate, header forwarding, and the streamed relay.  The
idle/absolute timers are real-time behaviour outside the model; absent a
timer firing, `pipeline` relays the whole body. -/
def finalPhase (trace : List ReqEntry) (r : UpstreamOk) : ProxyResult :=
  if r.status < 200 || 300 ≤ r.status then
    errResult trace r.status ("Upstream request failed: HTTP " ++ toString r.status)
  else if jsGtN (jsContentLength r.contentLength) MAX_CONTENT_LENGTH then
    errResult trace 413 "Remote file exceeds 2 GB limit"
  else
    { status := 200
      errorMsg := none
      contentType :=
        match r.contentType with
        | some t => if t ≠ "" then some t else none
        | none => none
      contentLength :=
        match jsContentLength r.contentLength with
        | some v => if 0 < v then some (toString v) else none
        | none => none
      relayedBytes := r.bodyBytes
      requests := trace }

/-- The redirect loop of the handler (`for (let hops = 0; hops < MAX_REDIRECTS; ...)`),
as structural recursion on the remaining iterations.  When the fuel is
exhausted the last response was necessarily a 3xx (`continue` is the only
path that consumes all iterations), which is the post-loop
`Too many redirects` branch. -/
def walk (resolveURL : String → String → Option URLRec) (dns : String → DnsPair)
    (net : String → Upstream) : Nat → String → String → Nat → ProxyResult
  | 0, _currentURL, _ip, _fam => errResult [] 502 "Too many redirects"
  | fuel + 1, currentURL, ip, fam =>
    let entry : ReqEntry := ⟨currentURL, ip, fam⟩
    match net currentURL with
    | .unreachable msg => errResult [entry] 502 ("Proxy request failed: " ++ msg)
    | .ok r =>
      if 300 ≤ r.status && r.status < 400 then
        match r.location with
        | none => errResult [entry] 502 "Redirect without Location header"
        | some location =>
          match resolveURL location currentURL with
          | none => errResult [entry] 502 "Invalid redirect URL"
          | some redirectTarget =>
            match validateTarget redirectTarget (dns redirectTarget.hostname) with
            | .rejected s m => errResult [entry] s m
            | .pinned ip2 fam2 =>
              let rest := walk resolveURL dns net fuel redirectTarget.href ip2 fam2
              { rest with requests := entry :: rest.requests }
      else finalPhase [entry] r

/-- `handler` from `api/fetch.js` as a pure function of the URL-parser, DNS
and network oracles.  `queryUrl` models `req.query.url` after the
array-flattening line. -/
def handler (parseURL : String → Option URLRec)
    (resolveURL : String → String → Option URLRec)
    (dns : String → DnsPair) (net : String → Upstream)
    (method : String) (queryUrl : Option String) : ProxyResult :=
  if method ≠ "GET" then errResult [] 405 "Method not allowed"
  else
    match queryUrl with
    | none => errResult [] 400 "Missing url query parameter"
    | some inputURL =>
      match parseURL inputURL with
      | none => errResult [] 400 "Invalid URL format"
      | some target =>
        match validateTarget target (dns target.hostname) with
        | .rejected s m => errResult [] s m
        | .pinned ip fam => walk resolveURL dns net MAX_REDIRECTS target.href ip fam

/-! ## Concrete scenarios -/

/-- Hostname of the single-hop scenario. -/
def originHost : String := "origin.example"

/-- URL string of the single-hop scenario. -/
def originHref : String := "http://origin.example/"

/-- Parsed URL of the single-hop scenario. -/
def originURL : URLRec :=
  ⟨"http:", originHost, originHost, 0, "/", "", originHref⟩

/-- URL parser oracle knowing only the single-hop URL. -/
def parseOne : String → Option URLRec :=
  fun s => if s = originHref then some originURL else none

/-- DNS oracle: the single-hop host has one public A record. -/
def dnsOne : String → DnsPair :=
  fun h =>
    if h = originHost then ⟨.ok ["203.0.113.9"], .err "ENODATA"⟩
    else ⟨.err "ENOTFOUND", .err "ENOTFOUND"⟩

/-- A redirect-resolution oracle on which `new URL(location, base)` throws. -/
def resolveNone : String → String → Option URLRec := fun _ _ => none

/-- Network oracle answering the single-hop URL with a fixed response. -/
def netOne (u : Upstream) : String → Upstream :=
  fun s => if s = originHref then u else .unreachable "ECONNREFUSED"

/-- Run the handler on the single-hop scenario with the given upstream
response. -/
def runOne (u : Upstream) : ProxyResult :=
  handler parseOne resolveNone dnsOne (netOne u) "GET" (some originHref)

/-- Hostname of hop `k` of the redirect-chain scenario. -/
def chainHost (k : Nat) : String := "h" ++ toString k ++ ".example"

/-- URL string of hop `k` of the redirect-chain scenario. -/
def chainHref (k : Nat) : String := "http://h" ++ toString k ++ ".example/"

/-- Parsed URL of hop `k` of the redirect-chain scenario. -/
def chainURL (k : Nat) : URLRec :=
  ⟨"http:", chainHost k, chainHost k, 0, "/", "", chainHref k⟩

/-- Index of a chain URL string among the first seven hops. -/
def chainIdx (s : String) : Option Nat :=
  ((List.range 7).filter (fun k => chainHref k = s)).head?

/-- URL parser / redirect resolver of the chain scenario. -/
def chainLookup (s : String) : Option URLRec :=
  (chainIdx s).map chainURL

/-- DNS oracle of the chain scenario: hop `k` resolves to the distinct
public address `203.0.113.k`. -/
def dnsChain : String → DnsPair :=
  fun h =>
    match ((List.range 7).filter (fun k => chainHost k = h)).head? with
    | some k => ⟨.ok ["203.0.113." ++ toString k], .err "ENODATA"⟩
    | none => ⟨.err "ENOTFOUND", .err "ENOTFOUND"⟩

/-- Network oracle of the chain scenario: the first `redirects` hops answer
302 to the next hop, the next hop answers 200. -/
def netChain (redirects : Nat) : String → Upstream :=
  fun s =>
    match chainIdx s with
    | some k =>
      if k < redirects then .ok ⟨302, some (chainHref (k + 1)), none, none, 0⟩
      else .ok ⟨200, none, some "5", some "text/plain", 5⟩
    | none => .unreachable "ECONNREFUSED"

/-- Run the handler on a chain of `redirects` consecutive 302 responses
followed by a 200. -/
def runChain (redirects : Nat) : ProxyResult :=
  handler chainLookup (fun loc _ => chainLookup loc) dnsChain (netChain redirects)
    "GET" (some (chainHref 0))

/-- Hostname of the public origin of the redirect-to-loopback scenario. -/
def pubHost : String := "pub.example"

/-- URL string of the public origin of the redirect-to-loopback scenario. -/
def pubHref : String := "http://pub.example/"

/-- Parsed URL of the public origin. -/
def pubURL : URLRec := ⟨"http:", pubHost, pubHost, 0, "/", "", pubHref⟩

/-- The loopback redirect target's URL string. -/
def loopHref : String := "http://127.0.0.1/"

/-- The loopback redirect target as a parsed URL. -/
def loopURL : URLRec := ⟨"http:", "127.0.0.1", "127.0.0.1", 0, "/", "", loopHref⟩

/-- URL parser oracle of the redirect-to-loopback scenario. -/
def parsePub : String → Option URLRec :=
  fun s => if s = pubHref then some pubURL else none

/-- Redirect resolver oracle of the redirect-to-loopback scenario. -/
def resolvePub : String → String → Option URLRec :=
  fun loc _ => if loc = loopHref then some loopURL else none

/-- DNS oracle of the redirect-to-loopback scenario. -/
def dnsPub : String → DnsPair :=
  fun h =>
    if h = pubHost then ⟨.ok ["93.184.216.34"], .err "ENODATA"⟩
    else ⟨.err "ENOTFOUND", .err "ENOTFOUND"⟩

/-- Network oracle of the redirect-to-loopback scenario: the public origin
answers 302 with `Location: http://127.0.0.1/`. -/
def netPub : String → Upstream :=
  fun s =>
    if s = pubHref then .ok ⟨302, some loopHref, none, none, 0⟩
    else .unreachable "ECONNREFUSED"

/-- Run the handler on the scenario where a validated public target answers
302 with `Location: http://127.0.0.1/`. -/
def runLoopback : ProxyResult :=
  handler parsePub resolvePub dnsPub netPub "GET" (some pubHref)

/-- A target whose only DNS record is the private address `10.0.0.5`. -/
def internalURL : URLRec :=
  ⟨"http:", "internal.example", "internal.example", 0, "/", "", "http://internal.example/"⟩

/-- Run the handler on the private-only-record scenario. -/
def runInternal : ProxyResult :=
  handler (fun s => if s = "http://internal.example/" then some internalURL else none)
    resolveNone
    (fun h =>
      if h = "internal.example" then ⟨.ok ["10.0.0.5"], .err "ENODATA"⟩
      else ⟨.err "ENOTFOUND", .err "ENOTFOUND"⟩)
    (fun _ => .unreachable "ECONNREFUSED")
    "GET" (some "http://internal.example/")

/-- A dual-stack target: public A record, hard AAAA resolver error. -/
def dualURL : URLRec :=
  ⟨"http:", "dual.example", "dual.example", 0, "/", "", "http://dual.example/"⟩

/-- DNS answers for the dual-stack target: A succeeds with a public address,
AAAA fails with a non-not-found error. -/
def dualDns : DnsPair := ⟨.ok ["8.8.8.8"], .err "ESERVFAIL"⟩

/-- A performed request was validated: some parsed URL with that exact URL
string passed `validateTarget` (under the same DNS oracle) yielding exactly
the pinned address and family the request was sent to. -/
def validatedEntry (dns : String → DnsPair) (e : ReqEntry) : Prop :=
  ∃ u : URLRec, u.href = e.url ∧ validateTarget u (dns u.hostname) = .pinned e.ip e.family

/-- The pinned request built in the single-hop scenario. -/
def c2req : PinnedReq :=
  ⟨⟨"GET", originHost, 80, "/", originHost, "reSOURCERY/2.4 (+https://resourcery.app)"⟩,
    fun _ => ("203.0.113.9", 4)⟩

example : runOne (.ok ⟨404, none, none, none, 0⟩) =
    errResult [⟨originHref, "203.0.113.9", 4⟩] 404 "Upstream request failed: HTTP 404" := by
  decide

example : runOne (.ok ⟨200, none, some "3000000000", none, 0⟩) =
    errResult [⟨originHref, "203.0.113.9", 4⟩] 413 "Remote file exceeds 2 GB limit" := by
  decide

example : (runOne (.ok ⟨200, none, none, none, 3000000000⟩)).status = 200 := by decide
example : (runOne (.ok ⟨200, none, none, none, 3000000000⟩)).relayedBytes = 3000000000 := by
  decide
example : (runOne (.ok ⟨200, none, some "2147483648", none, 2147483648⟩)).status = 200 := by
  decide
example : (runOne (.ok ⟨200, none, some "2147483648", none, 2147483648⟩)).contentLength =
    some "2147483648" := by decide
example : (runOne (.ok ⟨200, none, some "abc", none, 7⟩)).status = 200 := by decide
example : (runOne (.ok ⟨302, none, none, none, 0⟩)).errorMsg =
    some "Redirect without Location header" := by decide
example : (runOne (.ok ⟨302, some "::not-a-url::", none, none, 0⟩)).errorMsg =
    some "Invalid redirect URL" := by decide
example : runOne (.unreachable "ECONNREFUSED") =
    errResult [⟨originHref, "203.0.113.9", 4⟩] 502 "Proxy request failed: ECONNREFUSED" := by
  decide

example : (runChain 4).status = 200 := by decide
example : (runChain 5).status = 502 := by decide
example : (runChain 5).errorMsg = some "Too many redirects" := by decide
example : (runChain 6).status = 502 := by decide
example : (runChain 6).errorMsg = some "Too many redirects" := by decide

example : runLoopback.status = 403 := by decide
example : runLoopback.requests = [⟨pubHref, "93.184.216.34", 4⟩] := by decide
example : runInternal.status = 403 := by decide
example : runInternal.requests = [] := by decide
example : validateTarget dualURL dualDns = .pinned "8.8.8.8" 4 := by decide

example : isPrivateHost "127.0.0.1" = true := by decide
example : isPrivateHost "10.1.2.3" = true := by decide
example : isPrivateHost "::1" = true := by decide
example : isPrivateHost "::ffff:127.0.0.1" = true := by decide
example : isPrivateHost "::ffff:7f00:1" = true := by decide
example : isPrivateHost "fe80::1" = true := by decide
example : isPrivateHost "fe95::1" = true := by decide
example : isPrivateHost "8.8.8.8" = false := by decide
example : isPrivateHost "example.com" = false := by decide
example : isPrivateHost "LOCALHOST" = true := by decide
example : isPrivateHost "[::1]" = true := by decide
example : isPrivateHost "[FE80::1]" = true := by decide
example : isPrivateHost "" = true := by decide
example : isPrivateHost "1234.0.0.1" = false := by decide
example : isPrivateHost "10.0.0" = false := by decide
example : isPrivateHost "999.1.1.1" = true := by decide
example : isPrivateHost "172.16.0.1" = true := by decide
example : isPrivateHost "172.32.0.1" = false := by decide
example : isPrivateHost "169.254.9.9" = true := by decide
example : isPrivateHost "192.168.4.4" = true := by decide

/-! ## Helper lemmas about the handler -/

lemma not3xx_bool (s : Nat) (h : ¬(300 ≤ s ∧ s < 400)) :
    (decide (300 ≤ s) && decide (s < 400)) = false := by
  by_cases h1 : 300 ≤ s
  · have h2 : ¬ s < 400 := fun hh => h ⟨h1, hh⟩
    simp [h2]
  · simp [h1]

lemma walk_final (resolveURL : String → String → Option URLRec) (dns : String → DnsPair)
    (net : String → Upstream) (fuel : Nat) (url ip : String) (fam : Nat)
    (r : UpstreamOk) (hnet : net url = .ok r)
    (h3 : (decide (300 ≤ r.status) && decide (r.status < 400)) = false) :
    walk resolveURL dns net (fuel + 1) url ip fam = finalPhase [⟨url, ip, fam⟩] r := by
  simp only [walk]
  rw [hnet]
  simp [h3]

lemma runOne_final (r : UpstreamOk)
    (h3 : (decide (300 ≤ r.status) && decide (r.status < 400)) = false) :
    runOne (.ok r) = finalPhase [⟨originHref, "203.0.113.9", 4⟩] r := by
  have hv : validateTarget originURL (dnsOne originURL.hostname) = .pinned "203.0.113.9" 4 := by
    decide
  have hp : parseOne originHref = some originURL := by decide
  have hn : netOne (.ok r) originHref = .ok r := by
    simp [netOne]
  unfold runOne handler
  simp only [hp]
  rw [hv, if_neg (by decide : ¬ ("GET" ≠ "GET"))]
  show walk _ _ _ (4 + 1) originURL.href _ _ = _
  exact walk_final _ _ _ 4 _ _ _ r hn h3

lemma finalPhase_non2xx (trace : List ReqEntry) (r : UpstreamOk)
    (h : r.status < 200 ∨ 300 ≤ r.status) :
    finalPhase trace r =
      errResult trace r.status ("Upstream request failed: HTTP " ++ toString r.status) := by
  unfold finalPhase
  rw [if_pos (by rcases h with h | h <;> simp [h])]

lemma finalPhase_toobig (trace : List ReqEntry) (r : UpstreamOk)
    (h200 : 200 ≤ r.status) (h300 : r.status < 300)
    (hbig : jsGtN (jsContentLength r.contentLength) MAX_CONTENT_LENGTH = true) :
    finalPhase trace r = errResult trace 413 "Remote file exceeds 2 GB limit" := by
  unfold finalPhase
  rw [if_neg (by simp only [Bool.or_eq_true, decide_eq_true_eq]; omega), if_pos hbig]

lemma finalPhase_stream (trace : List ReqEntry) (r : UpstreamOk)
    (h200 : 200 ≤ r.status) (h300 : r.status < 300)
    (hbig : jsGtN (jsContentLength r.contentLength) MAX_CONTENT_LENGTH = false) :
    finalPhase trace r =
      { status := 200
        errorMsg := none
        contentType :=
          match r.contentType with
          | some t => if t ≠ "" then some t else none
          | none => none
        contentLength :=
          match jsContentLength r.contentLength with
          | some v => if 0 < v then some (toString v) else none
          | none => none
        relayedBytes := r.bodyBytes
        requests := trace } := by
  unfold finalPhase
  rw [if_neg (by simp only [Bool.or_eq_true, decide_eq_true_eq]; omega),
    if_neg (by simp [hbig])]

/-! ## Claim C5: redirect budget -/

/-- C5 counterexample: a chain of exactly 5 redirects (five consecutive
3xx responses to distinct validated public hosts, the sixth URL answering
200) does not succeed — the handler responds 502 `Too many redirects`,
contradicting the claim that a chain of exactly 5 completes. -/
theorem C5_counterexample :
    (runChain 5).status = 502 ∧ (runChain 5).errorMsg = some "Too many redirects" := by
  decide

/-- C5 (amended): the loop issues at most 5 upstream requests, so it can
follow at most 4 redirects: a chain of 4 redirects followed by a success
completes with 200, while chains of 5 and of 6 redirects both fail with 502
`Too many redirects`. -/
theorem C5_redirect_budget :
    (runChain 4).status = 200 ∧ (runChain 4).errorMsg = none ∧
    (runChain 4).relayedBytes = 5 ∧
    (runChain 5).status = 502 ∧ (runChain 5).errorMsg = some "Too many redirects" ∧
    (runChain 6).status = 502 ∧ (runChain 6).errorMsg = some "Too many redirects" := by
  decide

/-! ## Claim C7: non-2xx upstream status -/

/-- C7 counterexample: a final upstream 404 is answered with status 404
(mirroring the upstream code), not with the claimed 502. -/
theorem C7_counterexample :
    (runOne (.ok ⟨404, none, none, none, 0⟩)).status = 404 ∧
    (runOne (.ok ⟨404, none, none, none, 0⟩)).status ≠ 502 ∧
    (runOne (.ok ⟨404, none, none, none, 0⟩)).errorMsg =
      some "Upstream request failed: HTTP 404" := by
  decide

/-- C7 (amended): for a final upstream response with a non-2xx, non-3xx
status the proxy mirrors the upstream status code with a JSON error body
(it does not use 502); 502 is reserved for the other failure conditions:
redirect without `Location`, invalid redirect URL, redirect-limit
exhaustion, and an unreachable upstream. -/
theorem C7_upstream_failures :
    (∀ (trace : List ReqEntry) (r : UpstreamOk), r.status < 200 ∨ 400 ≤ r.status →
      finalPhase trace r =
        errResult trace r.status ("Upstream request failed: HTTP " ++ toString r.status)) ∧
    (∀ r : UpstreamOk, r.status < 200 ∨ 400 ≤ r.status →
      (runOne (.ok r)).status = r.status ∧
      (runOne (.ok r)).errorMsg = some ("Upstream request failed: HTTP " ++ toString r.status)) ∧
    (runOne (.ok ⟨302, none, none, none, 0⟩)).status = 502 ∧
    (runOne (.ok ⟨302, none, none, none, 0⟩)).errorMsg =
      some "Redirect without Location header" ∧
    (runOne (.ok ⟨302, some "::not-a-url::", none, none, 0⟩)).status = 502 ∧
    (runOne (.ok ⟨302, some "::not-a-url::", none, none, 0⟩)).errorMsg =
      some "Invalid redirect URL" ∧
    (runChain 6).errorMsg = some "Too many redirects" ∧
    (runOne (.unreachable "ECONNREFUSED")).status = 502 ∧
    (runOne (.unreachable "ECONNREFUSED")).errorMsg =
      some "Proxy request failed: ECONNREFUSED" := by
  refine ⟨?_, ?_, by decide, by decide, by decide, by decide, by decide, by decide, by decide⟩
  · intro trace r h
    exact finalPhase_non2xx trace r (by omega)
  · intro r h
    rw [runOne_final r (not3xx_bool r.status (by omega))]
    rw [finalPhase_non2xx _ r (by omega)]
    exact ⟨rfl, rfl⟩

/-- Witness for C7: the status-mirroring conjunct applied to a concrete
upstream 500 response. -/
theorem C7_witness :
    (runOne (.ok ⟨500, none, none, none, 0⟩)).status = 500 := by
  exact (C7_upstream_failures.2.1 ⟨500, none, none, none, 0⟩ (by decide)).1

/-! ## Claim C6: 2 GiB size gate -/

/-- C6 counterexample: an upstream 200 response with no declared
`Content-Length` and an actual body of 3000000000 bytes (over 2 GiB) is
relayed in full with status 200 — the handler never counts streamed bytes,
so no `PayloadTooLarge` failure occurs for actual (undeclared) oversize
bodies. -/
theorem C6_counterexample :
    (runOne (.ok ⟨200, none, none, none, 3000000000⟩)).status = 200 ∧
    (runOne (.ok ⟨200, none, none, none, 3000000000⟩)).relayedBytes = 3000000000 ∧
    (runOne (.ok ⟨200, none, none, none, 3000000000⟩)).errorMsg = none := by
  decide

/-- C6 (amended): only the declared length is enforced.  A declared
`Content-Length` over 2 GiB (e.g. 3000000000) is rejected with 413 before
any body bytes are forwarded; when the declared-length gate passes, the
body is relayed in full regardless of its actual size (bounded only by the
timers, which are outside this model). -/
theorem C6_size_gate :
    (runOne (.ok ⟨200, none, some "3000000000", none, 0⟩) =
      errResult [⟨originHref, "203.0.113.9", 4⟩] 413 "Remote file exceeds 2 GB limit") ∧
    (∀ (trace : List ReqEntry) (r : UpstreamOk), 200 ≤ r.status → r.status < 300 →
      jsGtN (jsContentLength r.contentLength) MAX_CONTENT_LENGTH = true →
      finalPhase trace r = errResult trace 413 "Remote file exceeds 2 GB limit") ∧
    (∀ (trace : List ReqEntry) (r : UpstreamOk), 200 ≤ r.status → r.status < 300 →
      jsGtN (jsContentLength r.contentLength) MAX_CONTENT_LENGTH = false →
      (finalPhase trace r).status = 200 ∧ (finalPhase trace r).relayedBytes = r.bodyBytes) := by
  refine ⟨by decide, ?_, ?_⟩
  · intro trace r h200 h300 hbig
    exact finalPhase_toobig trace r h200 h300 hbig
  · intro trace r h200 h300 hbig
    rw [finalPhase_stream trace r h200 h300 hbig]
    exact ⟨rfl, rfl⟩

/-- Witness for C6: the declared-size gate applied to a concrete response
declaring 3000000000 bytes. -/
theorem C6_witness :
    finalPhase [] ⟨200, none, some "3000000000", none, 0⟩ =
      errResult [] 413 "Remote file exceeds 2 GB limit" := by
  exact C6_size_gate.2.1 [] ⟨200, none, some "3000000000", none, 0⟩ (by decide) (by decide)
    (by decide)

/-! ## Claim C9: strict and parse-tolerant declared-size gate -/

/-- C9: a declared `Content-Length` of exactly 2147483648 (2 GiB) passes the
gate and is streamed with the header forwarded; a missing or non-numeric
`Content-Length` is treated as undeclared (streaming proceeds, no header
forwarded); in the success path the `Content-Length` header is forwarded to
the caller exactly when the parsed declared length is strictly positive. -/
theorem C9_declared_size_gate :
    (runOne (.ok ⟨200, none, some "2147483648", none, 2147483648⟩)).status = 200 ∧
    (runOne (.ok ⟨200, none, some "2147483648", none, 2147483648⟩)).relayedBytes =
      2147483648 ∧
    (runOne (.ok ⟨200, none, some "2147483648", none, 2147483648⟩)).contentLength =
      some "2147483648" ∧
    (runOne (.ok ⟨200, none, none, none, 7⟩)).status = 200 ∧
    (runOne (.ok ⟨200, none, none, none, 7⟩)).contentLength = none ∧
    (runOne (.ok ⟨200, none, none, none, 7⟩)).relayedBytes = 7 ∧
    (runOne (.ok ⟨200, none, some "abc", none, 7⟩)).status = 200 ∧
    (runOne (.ok ⟨200, none, some "abc", none, 7⟩)).contentLength = none ∧
    (runOne (.ok ⟨200, none, some "abc", none, 7⟩)).relayedBytes = 7 ∧
    (∀ (trace : List ReqEntry) (r : UpstreamOk), 200 ≤ r.status → r.status < 300 →
      jsGtN (jsContentLength r.contentLength) MAX_CONTENT_LENGTH = false →
      ((finalPhase trace r).contentLength ≠ none ↔
        ∃ v, jsContentLength r.contentLength = some v ∧ 0 < v)) := by
  refine ⟨by decide, by decide, by decide, by decide, by decide, by decide, by decide,
    by decide, by decide, ?_⟩
  intro trace r h200 h300 hbig
  rw [finalPhase_stream trace r h200 h300 hbig]
  rcases h : jsContentLength r.contentLength with _ | v
  · simp
  · by_cases hv : 0 < v
    · simp [hv]
    · simp [hv]

/-- Witness for C9: the header-forwarding conjunct applied to a concrete
response declaring 2147483648 bytes. -/
theorem C9_witness :
    (finalPhase [] ⟨200, none, some "2147483648", none, 0⟩).contentLength ≠ none := by
  exact (C9_declared_size_gate.2.2.2.2.2.2.2.2.2 [] ⟨200, none, some "2147483648", none, 0⟩
    (by decide) (by decide) (by decide)).mpr ⟨2147483648, by decide, by decide⟩

/-! ## Claim C8: DNS failure conditions -/

lemma hostReachesDns_spec (t : URLRec) (h : hostReachesDns t = true) :
    (t.protocol == "http:" || t.protocol == "https:") = true ∧
    isPrivateHost t.hostname = false ∧ parseIP t.hostname = none := by
  unfold hostReachesDns at h
  simp only [Bool.and_eq_true, Bool.not_eq_true'] at h
  exact ⟨h.1.1, h.1.2, Option.isNone_iff_eq_none.mp h.2⟩

lemma validateTarget_dns (t : URLRec) (d : DnsPair) (h : hostReachesDns t = true) :
    validateTarget t d = resolveAndValidate t.hostname d := by
  obtain ⟨hp, hpriv, hlit⟩ := hostReachesDns_spec t h
  unfold validateTarget
  rw [if_neg (by simp [hp]), if_neg (by simp [hpriv]), hlit]

/-- C8 counterexample: when the A lookup succeeds with the public address
8.8.8.8 and the AAAA lookup fails with the hard resolver error `ESERVFAIL`,
validation succeeds with the pinned IPv4 address — it does not fail with a
400 `DnsFailure` as the claim's "resolution of either family fails for a
reason other than not-found" condition would require. -/
theorem C8_counterexample :
    validateTarget dualURL dualDns = .pinned "8.8.8.8" 4 ∧
    vstatus (validateTarget dualURL dualDns) ≠ some 400 := by
  decide

/-- C8 (amended): for a non-literal hostname whose resolved addresses are
all public (and whose successful lookups return at least one address),
validation fails with status 400 if and only if the A lookup fails for a
reason other than not-found/no-data, or the A lookup soft-fails
(not-found/no-data) and the AAAA lookup also fails, softly or hard.  A hard
AAAA failure after an A lookup that produced an address is non-fatal. -/
theorem C8_dns_failure_iff :
    ∀ (t : URLRec) (d : DnsPair), hostReachesDns t = true →
      (∀ l, d.r4 = .ok l → l.any isPrivateIPv4 = false ∧ l ≠ []) →
      (∀ l, d.r6 = .ok l → l.any (fun a => isPrivateIPv6L (toLowerL a.data)) = false ∧ l ≠ []) →
      (vstatus (validateTarget t d) = some 400 ↔
        (∃ c, d.r4 = .err c ∧ softDnsErr c = false) ∨
        ((∃ c, d.r4 = .err c ∧ softDnsErr c = true) ∧ ∃ c2, d.r6 = .err c2)) := by
  intro t d hreach h4 h6
  rw [validateTarget_dns t d hreach]
  unfold resolveAndValidate
  cases hr4 : d.r4 with
  | ok l4 =>
    dsimp only
    obtain ⟨hl4priv, hl4ne⟩ := h4 l4 hr4
    rw [if_neg (by simp [hl4priv])]
    obtain ⟨a, ha⟩ : ∃ a, l4.head? = some a := by
      cases l4 with
      | nil => exact absurd rfl hl4ne
      | cons x xs => exact ⟨x, rfl⟩
    rw [ha]
    unfold v6Phase
    cases hr6 : d.r6 with
    | ok l6 =>
      dsimp only
      obtain ⟨hl6priv, _⟩ := h6 l6 hr6
      rw [if_neg (by simp [hl6priv])]
      simp [vstatus, hr4, hr6]
    | err c2 =>
      dsimp only
      rw [if_neg (by simp)]
      simp [vstatus, hr4, hr6]
  | err c =>
    dsimp only
    by_cases hsoft : softDnsErr c = true
    · rw [if_neg (by simp [hsoft])]
      unfold v6Phase
      cases hr6 : d.r6 with
      | ok l6 =>
        dsimp only
        obtain ⟨hl6priv, hl6ne⟩ := h6 l6 hr6
        rw [if_neg (by simp [hl6priv])]
        obtain ⟨b, hb⟩ : ∃ b, l6.head? = some b := by
          cases l6 with
          | nil => exact absurd rfl hl6ne
          | cons x xs => exact ⟨x, rfl⟩
        rw [hb]
        simp [vstatus, hr4, hr6, hsoft]
      | err c2 =>
        dsimp only
        cases hb2 : softDnsErr c2 with
        | true => simp [vstatus, hr4, hr6, hsoft, hb2]
        | false => simp [vstatus, hr4, hr6, hsoft, hb2]
    · rw [if_pos (by simpa using hsoft)]
      simp [vstatus, hr4, hsoft]

/-- Witness for C8: a hard A-lookup failure with a soft AAAA miss is a 400
`DnsFailure`. -/
theorem C8_witness :
    vstatus (validateTarget dualURL ⟨.err "ESERVFAIL", .err "ENODATA"⟩) = some 400 := by
  exact (C8_dns_failure_iff dualURL ⟨.err "ESERVFAIL", .err "ENODATA"⟩ (by decide)
    (by intro l hl; simp at hl) (by intro l hl; simp at hl)).mpr
    (Or.inl ⟨"ESERVFAIL", rfl, by decide⟩)

/-! ## Claim C10: fail-closed empty hostname and normalization -/

/-- C10: `isPrivateHost` returns true for the empty (falsy) hostname, and
normalizes before classifying — one layer of surrounding square brackets is
stripped and the name is lower-cased first — so `"LOCALHOST"`, `"[::1]"`
and `"[FE80::1]"` are all classified private. -/
theorem C10_normalization :
    isPrivateHost "" = true ∧ isPrivateHost "LOCALHOST" = true ∧
    isPrivateHost "[::1]" = true ∧ isPrivateHost "[FE80::1]" = true ∧
    (∀ h : String, h ≠ "" →
      isPrivateHost h = privHostCore (toLowerL (stripBracketsL h.data))) := by
  refine ⟨by decide, by decide, by decide, by decide, ?_⟩
  intro h hne
  unfold isPrivateHost privHostL
  rw [if_neg ?hd]
  case hd =>
    intro hd
    apply hne
    cases h with
    | mk l =>
      simp only [String.data] at hd
      rw [hd]

/-- Witness for C10: the normalization equation applied to `"LOCALHOST"`. -/
theorem C10_witness :
    isPrivateHost "LOCALHOST" = privHostCore (toLowerL (stripBracketsL "LOCALHOST".data)) := by
  exact C10_normalization.2.2.2.2 "LOCALHOST" (by decide)

/-! ## Claim C2: pinned transport -/

/-- C2: `pinnedRequest` never re-resolves the hostname — the `lookup`
callback it installs ignores its hostname argument and always reports the
pinned IP and family — while the request options preserve the protocol-level
identity of the target: the `Host` header is the URL's host, the request
hostname is the URL's hostname, the port is the URL's port or the scheme
default (443 for https, 80 otherwise), the method is GET and the path is
the URL's pathname plus query string. -/
theorem C2_pinned_transport :
    ∀ (parseURL : String → Option URLRec) (urlString : String) (u : URLRec)
      (ip : String) (fam : Nat) (r : PinnedReq),
      parseURL urlString = some u →
      pinnedRequest parseURL urlString ip fam = some r →
      (∀ h, r.lookup h = (ip, fam)) ∧
      r.options.hostHeader = u.host ∧
      r.options.hostname = u.hostname ∧
      r.options.port = (if u.port ≠ 0 then u.port else if u.protocol == "https:" then 443 else 80) ∧
      r.options.method = "GET" ∧
      r.options.path = u.pathname ++ u.search := by
  intro pu us u ip fam r hp hr
  unfold pinnedRequest at hr
  rw [hp] at hr
  dsimp only at hr
  injection hr with hr
  subst hr
  exact ⟨fun h => rfl, rfl, rfl, rfl, rfl, rfl⟩

/-- Witness for C2: the pinned request built in the single-hop scenario
ignores a rebinding hostname in its lookup and carries the original host
header. -/
theorem C2_witness :
    c2req.lookup "rebound.internal" = ("203.0.113.9", 4) ∧
    c2req.options.hostHeader = originURL.host := by
  have h := C2_pinned_transport parseOne originHref originURL "203.0.113.9" 4 c2req
    (by decide) rfl
  exact ⟨h.1 "rebound.internal", h.2.1⟩

/-! ## Claim C3: any private resolved address rejects the validation -/

/-- C3: if any address actually returned by the run's DNS resolution (A or
AAAA family) is private/reserved, `validateTarget` rejects with 403 and the
private-network error (so no pinned address is produced); end to end, a
hostname whose only DNS record is the private address 10.0.0.5 is rejected
with status 403 and no upstream request is made. -/
theorem C3_private_resolution_rejected :
    (∀ (t : URLRec) (d : DnsPair),
      ((∃ a ∈ runResolved4 t d, isPrivateIPv4 a = true) ∨
        (∃ a ∈ runResolved6 t d, isPrivateIPv6L (toLowerL a.data) = true)) →
      validateTarget t d = .rejected 403 "Private network addresses are not allowed") ∧
    runInternal.status = 403 ∧
    runInternal.errorMsg = some "Private network addresses are not allowed" ∧
    runInternal.requests = [] := by
  refine ⟨?_, by decide, by decide, by decide⟩
  intro t d h
  by_cases hreach : hostReachesDns t = true
  · rw [validateTarget_dns t d hreach]
    unfold resolveAndValidate
    rcases h with ⟨a, ha, hpriv⟩ | ⟨a, ha, hpriv⟩
    · unfold runResolved4 at ha
      rw [if_pos hreach] at ha
      cases hr4 : d.r4 with
      | ok l4 =>
        rw [hr4] at ha
        dsimp only
        rw [if_pos (List.any_eq_true.mpr ⟨a, ha, hpriv⟩)]
      | err c =>
        rw [hr4] at ha
        simp at ha
    · unfold runResolved6 at ha
      by_cases hclear : v4PhaseClear d = true
      · rw [if_pos (by simp [hreach, hclear])] at ha
        cases hr6 : d.r6 with
        | ok l6 =>
          rw [hr6] at ha
          dsimp only at ha
          cases hr4 : d.r4 with
          | ok l4 =>
            dsimp only
            unfold v4PhaseClear at hclear
            rw [hr4] at hclear
            dsimp only at hclear
            simp only [Bool.not_eq_true'] at hclear
            rw [if_neg (by simp [hclear])]
            unfold v6Phase
            dsimp only
            rw [if_pos (List.any_eq_true.mpr ⟨a, ha, hpriv⟩)]
          | err c =>
            dsimp only
            unfold v4PhaseClear at hclear
            rw [hr4] at hclear
            dsimp only at hclear
            rw [if_neg (by simp [hclear])]
            unfold v6Phase
            dsimp only
            rw [if_pos (List.any_eq_true.mpr ⟨a, ha, hpriv⟩)]
        | err c2 =>
          rw [hr6] at ha
          simp at ha
      · have hcf : v4PhaseClear d = false := by
          revert hclear
          cases v4PhaseClear d <;> simp
        rw [if_neg (by simp [hcf])] at ha
        simp at ha
  · have hf : hostReachesDns t = false := by
      revert hreach
      cases hostReachesDns t <;> simp
    unfold runResolved4 runResolved6 at h
    rw [hf] at h
    simp at h

/-- Witness for C3: the universal conjunct applied to the concrete target
whose only A record is 10.0.0.5. -/
theorem C3_witness :
    validateTarget internalURL ⟨.ok ["10.0.0.5"], .err "ENODATA"⟩ =
      .rejected 403 "Private network addresses are not allowed" := by
  exact C3_private_resolution_rejected.1 internalURL ⟨.ok ["10.0.0.5"], .err "ENODATA"⟩
    (Or.inl ⟨"10.0.0.5", by decide, by decide⟩)

/-! ## Claim C1: every request was validated first -/

lemma finalPhase_requests (trace : List ReqEntry) (r : UpstreamOk) :
    (finalPhase trace r).requests = trace := by
  unfold finalPhase
  split
  · rfl
  · split
    · rfl
    · rfl

lemma walk_validated (resolveURL : String → String → Option URLRec) (dns : String → DnsPair)
    (net : String → Upstream) :
    ∀ (fuel : Nat) (url ip : String) (fam : Nat),
      validatedEntry dns ⟨url, ip, fam⟩ →
      ∀ e ∈ (walk resolveURL dns net fuel url ip fam).requests, validatedEntry dns e := by
  intro fuel
  induction fuel with
  | zero =>
    intro url ip fam _ e he
    simp [walk, errResult] at he
  | succ n ih =>
    intro url ip fam hbase e he
    simp only [walk] at he
    cases hnet : net url with
    | unreachable msg =>
      rw [hnet] at he
      dsimp only [errResult] at he
      rw [List.mem_singleton] at he
      subst he
      exact hbase
    | ok r =>
      rw [hnet] at he
      dsimp only at he
      by_cases h3 : (decide (300 ≤ r.status) && decide (r.status < 400)) = true
      · rw [if_pos h3] at he
        cases hloc : r.location with
        | none =>
          rw [hloc] at he
          dsimp only [errResult] at he
          rw [List.mem_singleton] at he
          subst he
          exact hbase
        | some loc =>
          rw [hloc] at he
          dsimp only at he
          cases hres : resolveURL loc url with
          | none =>
            rw [hres] at he
            dsimp only [errResult] at he
            rw [List.mem_singleton] at he
            subst he
            exact hbase
          | some rt =>
            rw [hres] at he
            dsimp only at he
            cases hval : validateTarget rt (dns rt.hostname) with
            | rejected s m =>
              rw [hval] at he
              dsimp only [errResult] at he
              rw [List.mem_singleton] at he
              subst he
              exact hbase
            | pinned ip2 fam2 =>
              rw [hval] at he
              dsimp only at he
              rw [List.mem_cons] at he
              rcases he with he | he
              · subst he
                exact hbase
              · exact ih rt.href ip2 fam2 ⟨rt, rfl, hval⟩ e he
      · rw [if_neg h3] at he
        rw [finalPhase_requests] at he
        rw [List.mem_singleton] at he
        subst he
        exact hbase

/-- C1: every upstream request the handler performs — the original target
and every redirect hop — is issued for a URL that has passed the full
target validator (protocol allowlist, private-literal check, DNS resolution
with per-address privacy check) yielding exactly the pinned address the
request is sent to; and in the concrete scenario where a validated public
target redirects to `http://127.0.0.1/`, the handler answers 403 and never
issues a request for the loopback URL. -/
theorem C1_validated_before_io :
    (∀ (parseURL : String → Option URLRec) (resolveURL : String → String → Option URLRec)
      (dns : String → DnsPair) (net : String → Upstream) (method : String)
      (queryUrl : Option String) (e : ReqEntry),
      e ∈ (handler parseURL resolveURL dns net method queryUrl).requests →
      validatedEntry dns e) ∧
    runLoopback.status = 403 ∧
    runLoopback.errorMsg = some "Private network addresses are not allowed" ∧
    runLoopback.requests = [⟨pubHref, "93.184.216.34", 4⟩] ∧
    (runLoopback.requests.all fun e => e.url ≠ loopHref) = true := by
  refine ⟨?_, by decide, by decide, by decide, by decide⟩
  intro pu ru dns net m q e he
  unfold handler at he
  by_cases hm : m ≠ "GET"
  · rw [if_pos hm] at he
    simp [errResult] at he
  · rw [if_neg hm] at he
    cases q with
    | none => simp [errResult] at he
    | some inputURL =>
      dsimp only at he
      cases hp : pu inputURL with
      | none =>
        rw [hp] at he
        simp [errResult] at he
      | some target =>
        rw [hp] at he
        dsimp only at he
        cases hv : validateTarget target (dns target.hostname) with
        | rejected s msg =>
          rw [hv] at he
          simp [errResult] at he
        | pinned ip fam =>
          rw [hv] at he
          dsimp only at he
          exact walk_validated ru dns net MAX_REDIRECTS target.href ip fam
            ⟨target, rfl, hv⟩ e he

/-- Witness for C1: the request actually performed in the loopback-redirect
scenario was validated (with its pinned address) before being issued. -/
theorem C1_witness : validatedEntry dnsPub ⟨pubHref, "93.184.216.34", 4⟩ := by
  exact C1_validated_before_io.1 parsePub resolvePub dnsPub netPub "GET" (some pubHref)
    ⟨pubHref, "93.184.216.34", 4⟩ (by decide)

/-! ## Claim C4: character and split lemmas -/

lemma digit_bounds (c : Char) (h : isDigitC c = true) : 48 ≤ c.toNat ∧ c.toNat ≤ 57 := by
  simpa [isDigitC] using h

lemma lowerChar_digit (c : Char) (h : isDigitC c = true) : lowerChar c = c := by
  obtain ⟨h1, h2⟩ := digit_bounds c h
  unfold lowerChar
  rw [if_neg (by omega)]

lemma digit_ne (c d : Char) (h : isDigitC c = true) (hd : isDigitC d = false) : c ≠ d := by
  intro he
  subst he
  rw [hd] at h
  exact Bool.noConfusion h

lemma noDot (g : List Char) (h : ∀ c ∈ g, isDigitC c = true) : ∀ c ∈ g, c ≠ '.' :=
  fun c hc => digit_ne c '.' (h c hc) (by decide)

lemma splitDot_no (xs : List Char) (h : ∀ c ∈ xs, c ≠ '.') : splitDot xs = [xs] := by
  induction xs with
  | nil => rfl
  | cons c t ih =>
    simp only [splitDot]
    rw [if_neg (h c (by simp))]
    rw [ih (fun x hx => h x (by simp [hx]))]

lemma splitDot_sep (xs ys : List Char) (h : ∀ c ∈ xs, c ≠ '.') :
    splitDot (xs ++ '.' :: ys) = xs :: splitDot ys := by
  induction xs with
  | nil =>
    simp [splitDot]
  | cons c t ih =>
    simp only [List.cons_append, splitDot]
    rw [if_neg (h c (by simp))]
    simp only [List.append_eq]
    rw [ih (fun x hx => h x (by simp [hx]))]

lemma splitDot_quad (g1 g2 g3 g4 : List Char)
    (h1 : ∀ c ∈ g1, isDigitC c = true) (h2 : ∀ c ∈ g2, isDigitC c = true)
    (h3 : ∀ c ∈ g3, isDigitC c = true) (h4 : ∀ c ∈ g4, isDigitC c = true) :
    splitDot (g1 ++ '.' :: (g2 ++ '.' :: (g3 ++ '.' :: g4))) = [g1, g2, g3, g4] := by
  rw [splitDot_sep _ _ (noDot g1 h1), splitDot_sep _ _ (noDot g2 h2),
    splitDot_sep _ _ (noDot g3 h3), splitDot_no _ (noDot g4 h4)]

lemma decValL_le (g : List Char) (h : ∀ c ∈ g, isDigitC c = true) (hlen : g.length ≤ 3) :
    decValL g ≤ 999 := by
  rcases g with _ | ⟨a, _ | ⟨b, _ | ⟨c, _ | ⟨d, t⟩⟩⟩⟩
  · simp [decValL]
  · obtain ⟨ha1, ha2⟩ := digit_bounds a (h a (by simp))
    simp only [decValL, List.foldl]
    omega
  · obtain ⟨ha1, ha2⟩ := digit_bounds a (h a (by simp))
    obtain ⟨hb1, hb2⟩ := digit_bounds b (h b (by simp))
    simp only [decValL, List.foldl]
    omega
  · obtain ⟨ha1, ha2⟩ := digit_bounds a (h a (by simp))
    obtain ⟨hb1, hb2⟩ := digit_bounds b (h b (by simp))
    obtain ⟨hc1, hc2⟩ := digit_bounds c (h c (by simp))
    simp only [decValL, List.foldl]
    omega
  · simp at hlen

lemma jsNumL_digits (g : List Char) (hne : g ≠ []) (h : ∀ c ∈ g, isDigitC c = true) :
    jsNumL g = some ((decValL g : Nat) : Int) := by
  unfold jsNumL
  rw [if_neg hne, if_pos (List.all_eq_true.mpr h)]

lemma badOctet_inrange (v : Int) (h0 : 0 ≤ v) (h255 : v ≤ 255) : badOctet (some v) = false := by
  simp only [badOctet, Bool.or_eq_false_iff, decide_eq_false_iff_not]
  omega

lemma badOctet_big (v : Int) (h : 255 < v) : badOctet (some v) = true := by
  simp only [badOctet, Bool.or_eq_true, decide_eq_true_eq]
  omega

lemma toLowerL_fix : ∀ l : List Char, (∀ c ∈ l, lowerChar c = c) → toLowerL l = l := by
  intro l
  induction l with
  | nil => intro _; rfl
  | cons c t ih =>
    intro h
    show List.map lowerChar (c :: t) = c :: t
    rw [List.map_cons, h c (by simp)]
    exact congrArg (c :: ·) (ih (fun x hx => h x (by simp [hx])))

lemma stripBracketsL_id (l : List Char)
    (hh : ∀ c, l.head? = some c → c ≠ '[')
    (hl : ∀ c, l.getLast? = some c → c ≠ ']') :
    stripBracketsL l = l := by
  unfold stripBracketsL
  have h1 : (if l.head? = some '[' then l.tail else l) = l := by
    split
    · next hcond => exact absurd rfl (hh '[' hcond)
    · rfl
  simp only [h1]
  split
  · next hcond => exact absurd rfl (hl ']' hcond)
  · rfl

lemma ciMapped7_digit (a : Char) (l : List Char) (h : isDigitC a = true) :
    ciMapped7 (a :: l) = false := by
  unfold ciMapped7
  apply decide_eq_false
  intro he
  have ht : (a :: l).take 7 = a :: l.take 6 := rfl
  rw [ht] at he
  simp only [toLowerL, List.map_cons] at he
  injection he with he1 _
  rw [lowerChar_digit a h] at he1
  subst he1
  exact absurd h (by decide)

lemma okOctB_of (g : List Char) (h : okOct g) : okOctB g = true := by
  obtain ⟨h1, h2, h3⟩ := h
  simp [okOctB, h1, h2, List.all_eq_true.mpr h3]

lemma isDottedQuadL_quad (g1 g2 g3 g4 : List Char)
    (h1 : okOct g1) (h2 : okOct g2) (h3 : okOct g3) (h4 : okOct g4) :
    isDottedQuadL (g1 ++ '.' :: (g2 ++ '.' :: (g3 ++ '.' :: g4))) = true := by
  unfold isDottedQuadL
  rw [splitDot_quad _ _ _ _ h1.2.2 h2.2.2 h3.2.2 h4.2.2]
  simp [okOctB_of _ h1, okOctB_of _ h2, okOctB_of _ h3, okOctB_of _ h4]

lemma parseIPL_quad (l : List Char) (hstrip : stripBracketsL l = l)
    (hci : ciMapped7 l = false) (hquad : isDottedQuadL l = true) :
    parseIPL l = some ⟨4, l⟩ := by
  unfold parseIPL
  simp only [hstrip]
  rw [show mappedDotted l = none from by simp [mappedDotted, hci]]
  dsimp only
  rw [show mappedHex l = none from by simp [mappedHex, hci]]
  dsimp only
  rw [if_pos hquad]

lemma privHostCore_ip4 (l : List Char) (hne : l ≠ "localhost".data)
    (hp : parseIPL l = some ⟨4, l⟩) :
    privHostCore l = isPrivateIPv4L l := by
  unfold privHostCore
  rw [if_neg hne, hp]
  dsimp only
  rw [if_pos rfl]

lemma privHostL_norm (l : List Char) (hne : l ≠ [])
    (hstrip : stripBracketsL l = l) (hlow : toLowerL l = l) :
    privHostL l = privHostCore l := by
  unfold privHostL
  rw [if_neg hne, hstrip, hlow]

lemma quad_getLast (g1 g2 g3 g4 : List Char) (h4ne : g4 ≠ []) :
    (g1 ++ '.' :: (g2 ++ '.' :: (g3 ++ '.' :: g4))).getLast? = g4.getLast? := by
  rw [List.getLast?_append_cons]
  rw [← List.cons_append, List.getLast?_append_cons]
  rw [← List.cons_append, List.getLast?_append_cons]
  cases g4 with
  | nil => exact absurd rfl h4ne
  | cons d t => rw [List.getLast?_cons_cons]

lemma quad_parts (g1 g2 g3 g4 : List Char)
    (h1 : okOct g1) (h2 : okOct g2) (h3 : okOct g3) (h4 : okOct g4) :
    (splitDot (g1 ++ '.' :: (g2 ++ '.' :: (g3 ++ '.' :: g4)))).map jsNumL =
      [some ((decValL g1 : Nat) : Int), some ((decValL g2 : Nat) : Int),
        some ((decValL g3 : Nat) : Int), some ((decValL g4 : Nat) : Int)] := by
  rw [splitDot_quad _ _ _ _ h1.2.2 h2.2.2 h3.2.2 h4.2.2]
  simp [jsNumL_digits g1 h1.1 h1.2.2, jsNumL_digits g2 h2.1 h2.2.2,
    jsNumL_digits g3 h3.1 h3.2.2, jsNumL_digits g4 h4.1 h4.2.2]

lemma isPrivateIPv4L_quad_big (g1 g2 g3 g4 : List Char)
    (h1 : okOct g1) (h2 : okOct g2) (h3 : okOct g3) (h4 : okOct g4)
    (hov : 255 < decValL g1 ∨ 255 < decValL g2 ∨ 255 < decValL g3 ∨ 255 < decValL g4) :
    isPrivateIPv4L (g1 ++ '.' :: (g2 ++ '.' :: (g3 ++ '.' :: g4))) = true := by
  have hparts := quad_parts g1 g2 g3 g4 h1 h2 h3 h4
  rcases hov with h | h | h | h
  · have hc : (255 : Int) < ((decValL g1 : Nat) : Int) := by exact_mod_cast h
    simp only [isPrivateIPv4L, hparts]
    simp [badOctet_big _ hc]
  · have hc : (255 : Int) < ((decValL g2 : Nat) : Int) := by exact_mod_cast h
    simp only [isPrivateIPv4L, hparts]
    simp [badOctet_big _ hc]
  · have hc : (255 : Int) < ((decValL g3 : Nat) : Int) := by exact_mod_cast h
    simp only [isPrivateIPv4L, hparts]
    simp [badOctet_big _ hc]
  · have hc : (255 : Int) < ((decValL g4 : Nat) : Int) := by exact_mod_cast h
    simp only [isPrivateIPv4L, hparts]
    simp [badOctet_big _ hc]

lemma isPrivateIPv4L_quad_inrange (g1 g2 g3 g4 : List Char)
    (h1 : okOct g1) (h2 : okOct g2) (h3 : okOct g3) (h4 : okOct g4)
    (b1 : decValL g1 ≤ 255) (b2 : decValL g2 ≤ 255)
    (b3 : decValL g3 ≤ 255) (b4 : decValL g4 ≤ 255) :
    isPrivateIPv4L (g1 ++ '.' :: (g2 ++ '.' :: (g3 ++ '.' :: g4))) =
      privRangeB ((decValL g1 : Nat) : Int) ((decValL g2 : Nat) : Int) := by
  have hparts := quad_parts g1 g2 g3 g4 h1 h2 h3 h4
  have e1 : badOctet (some ((decValL g1 : Nat) : Int)) = false :=
    badOctet_inrange _ (Int.natCast_nonneg _) (by exact_mod_cast b1)
  have e2 : badOctet (some ((decValL g2 : Nat) : Int)) = false :=
    badOctet_inrange _ (Int.natCast_nonneg _) (by exact_mod_cast b2)
  have e3 : badOctet (some ((decValL g3 : Nat) : Int)) = false :=
    badOctet_inrange _ (Int.natCast_nonneg _) (by exact_mod_cast b3)
  have e4 : badOctet (some ((decValL g4 : Nat) : Int)) = false :=
    badOctet_inrange _ (Int.natCast_nonneg _) (by exact_mod_cast b4)
  simp [isPrivateIPv4L, hparts, List.getD, e1, e2, e3, e4]

lemma privPair_privRangeB (a b : Nat) (h : privPair a b) :
    privRangeB ((a : Nat) : Int) ((b : Nat) : Int) = true := by
  unfold privPair at h
  simp only [privRangeB, Bool.or_eq_true, Bool.and_eq_true, decide_eq_true_eq]
  rcases h with h | h | ⟨h, hb1, hb2⟩ | ⟨h, hb⟩ | ⟨h, hb⟩ | h | ⟨h, hb1, hb2⟩ | ⟨h, hb⟩ | h <;>
    omega

lemma privHost_quad (g1 g2 g3 g4 : List Char)
    (h1 : okOct g1) (h2 : okOct g2) (h3 : okOct g3) (h4 : okOct g4)
    (hp : privPair (decValL g1) (decValL g2) ∨
      255 < decValL g1 ∨ 255 < decValL g2 ∨ 255 < decValL g3 ∨ 255 < decValL g4) :
    privHostL (g1 ++ '.' :: (g2 ++ '.' :: (g3 ++ '.' :: g4))) = true := by
  obtain ⟨a, t1, rfl⟩ : ∃ a t1, g1 = a :: t1 := by
    cases g1 with
    | nil => exact absurd rfl h1.1
    | cons a t1 => exact ⟨a, t1, rfl⟩
  have hda : isDigitC a = true := h1.2.2 a (by simp)
  have hchars : ∀ c ∈ (a :: t1) ++ '.' :: (g2 ++ '.' :: (g3 ++ '.' :: g4)),
      isDigitC c = true ∨ c = '.' := by
    intro c hc
    rcases List.mem_append.mp hc with h | h
    · exact Or.inl (h1.2.2 c h)
    · rcases List.mem_cons.mp h with rfl | h
      · exact Or.inr rfl
      · rcases List.mem_append.mp h with h | h
        · exact Or.inl (h2.2.2 c h)
        · rcases List.mem_cons.mp h with rfl | h
          · exact Or.inr rfl
          · rcases List.mem_append.mp h with h | h
            · exact Or.inl (h3.2.2 c h)
            · rcases List.mem_cons.mp h with rfl | h
              · exact Or.inr rfl
              · exact Or.inl (h4.2.2 c h)
  have hlow : toLowerL ((a :: t1) ++ '.' :: (g2 ++ '.' :: (g3 ++ '.' :: g4))) =
      (a :: t1) ++ '.' :: (g2 ++ '.' :: (g3 ++ '.' :: g4)) := by
    apply toLowerL_fix
    intro c hc
    rcases hchars c hc with h | rfl
    · exact lowerChar_digit c h
    · decide
  have hhead : ((a :: t1) ++ '.' :: (g2 ++ '.' :: (g3 ++ '.' :: g4))).head? = some a := rfl
  have hh : ∀ c, ((a :: t1) ++ '.' :: (g2 ++ '.' :: (g3 ++ '.' :: g4))).head? = some c →
      c ≠ '[' := by
    intro c hc
    rw [hhead] at hc
    injection hc with hc
    subst hc
    exact digit_ne a '[' hda (by decide)
  have hl : ∀ c, ((a :: t1) ++ '.' :: (g2 ++ '.' :: (g3 ++ '.' :: g4))).getLast? = some c →
      c ≠ ']' := by
    intro c hc
    rw [quad_getLast _ _ _ _ h4.1] at hc
    rw [List.getLast?_eq_getLast_of_ne_nil h4.1] at hc
    injection hc with hc
    subst hc
    exact digit_ne _ ']' (h4.2.2 _ (List.getLast_mem h4.1)) (by decide)
  have hstrip := stripBracketsL_id _ hh hl
  have hne : (a :: t1) ++ '.' :: (g2 ++ '.' :: (g3 ++ '.' :: g4)) ≠ [] := by simp
  have hnloc : (a :: t1) ++ '.' :: (g2 ++ '.' :: (g3 ++ '.' :: g4)) ≠ "localhost".data := by
    intro he
    simp only [List.cons_append] at he
    injection he with he1 _
    exact digit_ne a 'l' hda (by decide) he1
  have hci : ciMapped7 ((a :: t1) ++ '.' :: (g2 ++ '.' :: (g3 ++ '.' :: g4))) = false := by
    have hshape : (a :: t1) ++ '.' :: (g2 ++ '.' :: (g3 ++ '.' :: g4)) =
        a :: (t1 ++ '.' :: (g2 ++ '.' :: (g3 ++ '.' :: g4))) := rfl
    rw [hshape]
    exact ciMapped7_digit a _ hda
  have hquad := isDottedQuadL_quad _ _ _ _ h1 h2 h3 h4
  have hplit := parseIPL_quad _ hstrip hci hquad
  rw [privHostL_norm _ hne hstrip hlow, privHostCore_ip4 _ hnloc hplit]
  rcases hp with hpair | hov
  · by_cases hov : 255 < decValL (a :: t1) ∨ 255 < decValL g2 ∨ 255 < decValL g3 ∨
      255 < decValL g4
    · exact isPrivateIPv4L_quad_big _ _ _ _ h1 h2 h3 h4 hov
    · push_neg at hov
      rw [isPrivateIPv4L_quad_inrange _ _ _ _ h1 h2 h3 h4 hov.1 hov.2.1 hov.2.2.1 hov.2.2.2]
      exact privPair_privRangeB _ _ hpair
  · exact isPrivateIPv4L_quad_big _ _ _ _ h1 h2 h3 h4 hov

lemma okOct_of_okOctB (g : List Char) (h : okOctB g = true) : okOct g := by
  unfold okOctB at h
  simp only [Bool.and_eq_true, decide_eq_true_eq, List.all_eq_true] at h
  exact ⟨h.1.1, h.1.2, h.2⟩

/-- C4 counterexample: the claim's fail-closed clause does not hold at the
`isPrivateHost` level — a dotted string with an octet outside 0–255 written
with four digits (`1234.0.0.1`), or with the wrong number of octets
(`10.0.0`), does not match the literal regex `\d{1,3}(\.\d{1,3}){3}`, is
treated as a hostname rather than an IP literal, and is classified public
(false) at the literal-check stage. -/
theorem C4_counterexample :
    isPrivateHost "1234.0.0.1" = false ∧ isPrivateHost "10.0.0" = false := by
  decide

/-- C4 (amended): `isPrivateHost` classifies literals as specified on every
string matching the literal regex shape (four groups of one to three
digits): all such strings in 10.0.0.0/8, 127.0.0.0/8, 192.168.0.0/16,
169.254.0.0/16 and 172.16.0.0/12 are private, and within that shape a
group valued above 255 fails closed (private); `"::1"`,
`"::ffff:127.0.0.1"`, `"fe80::1"` and `"fe95::1"` are private; `"8.8.8.8"`
and `"example.com"` are public.  Dotted strings outside the
1–3-digit-per-group four-group shape are not treated as IPv4 literals and
return false at this stage (deferred to the DNS-resolution checks). -/
theorem C4_literal_classification :
    (∀ g2 g3 g4 : List Char, okOct g2 → okOct g3 → okOct g4 →
      isPrivateHost (String.mk ('1' :: '0' :: '.' :: (g2 ++ '.' :: (g3 ++ '.' :: g4)))) =
        true) ∧
    (∀ g2 g3 g4 : List Char, okOct g2 → okOct g3 → okOct g4 →
      isPrivateHost (String.mk ('1' :: '2' :: '7' :: '.' :: (g2 ++ '.' :: (g3 ++ '.' :: g4)))) =
        true) ∧
    (∀ g3 g4 : List Char, okOct g3 → okOct g4 →
      isPrivateHost (String.mk
        ('1' :: '9' :: '2' :: '.' :: '1' :: '6' :: '8' :: '.' :: (g3 ++ '.' :: g4))) = true) ∧
    (∀ g3 g4 : List Char, okOct g3 → okOct g4 →
      isPrivateHost (String.mk
        ('1' :: '6' :: '9' :: '.' :: '2' :: '5' :: '4' :: '.' :: (g3 ++ '.' :: g4))) = true) ∧
    (∀ g2 g3 g4 : List Char, okOct g2 → okOct g3 → okOct g4 →
      16 ≤ decValL g2 → decValL g2 ≤ 31 →
      isPrivateHost (String.mk ('1' :: '7' :: '2' :: '.' :: (g2 ++ '.' :: (g3 ++ '.' :: g4)))) =
        true) ∧
    (∀ g1 g2 g3 g4 : List Char, okOct g1 → okOct g2 → okOct g3 → okOct g4 →
      (255 < decValL g1 ∨ 255 < decValL g2 ∨ 255 < decValL g3 ∨ 255 < decValL g4) →
      isPrivateHost (String.mk (g1 ++ '.' :: (g2 ++ '.' :: (g3 ++ '.' :: g4)))) = true) ∧
    isPrivateHost "::1" = true ∧
    isPrivateHost "::ffff:127.0.0.1" = true ∧
    isPrivateHost "fe80::1" = true ∧
    isPrivateHost "fe95::1" = true ∧
    isPrivateHost "8.8.8.8" = false ∧
    isPrivateHost "example.com" = false ∧
    isPrivateHost "1234.0.0.1" = false ∧
    isPrivateHost "10.0.0" = false := by
  refine ⟨?_, ?_, ?_, ?_, ?_, ?_, by decide, by decide, by decide, by decide, by decide,
    by decide, by decide, by decide⟩
  · intro g2 g3 g4 h2 h3 h4
    exact privHost_quad ['1', '0'] g2 g3 g4 (okOct_of_okOctB _ (by decide)) h2 h3 h4
      (Or.inl (by unfold privPair; exact Or.inr (Or.inl (by decide))))
  · intro g2 g3 g4 h2 h3 h4
    exact privHost_quad ['1', '2', '7'] g2 g3 g4 (okOct_of_okOctB _ (by decide)) h2 h3 h4
      (Or.inl (by unfold privPair; exact Or.inl (by decide)))
  · intro g3 g4 h3 h4
    exact privHost_quad ['1', '9', '2'] ['1', '6', '8'] g3 g4 (okOct_of_okOctB _ (by decide))
      (okOct_of_okOctB _ (by decide)) h3 h4
      (Or.inl (by
        unfold privPair
        exact Or.inr (Or.inr (Or.inr (Or.inl ⟨by decide, by decide⟩)))))
  · intro g3 g4 h3 h4
    exact privHost_quad ['1', '6', '9'] ['2', '5', '4'] g3 g4 (okOct_of_okOctB _ (by decide))
      (okOct_of_okOctB _ (by decide)) h3 h4
      (Or.inl (by
        unfold privPair
        exact Or.inr (Or.inr (Or.inr (Or.inr (Or.inl ⟨by decide, by decide⟩))))))
  · intro g2 g3 g4 h2 h3 h4 hb1 hb2
    exact privHost_quad ['1', '7', '2'] g2 g3 g4 (okOct_of_okOctB _ (by decide)) h2 h3 h4
      (Or.inl (by
        unfold privPair
        exact Or.inr (Or.inr (Or.inl ⟨by decide, hb1, hb2⟩))))
  · intro g1 g2 g3 g4 h1 h2 h3 h4 hov
    exact privHost_quad g1 g2 g3 g4 h1 h2 h3 h4 (Or.inr hov)

/-- Witness for C4: the 10.0.0.0/8 family applied to the concrete octet
groups 2, 3 and 4 (the string `10.2.3.4`). -/
theorem C4_witness :
    isPrivateHost (String.mk ('1' :: '0' :: '.' :: (['2'] ++ '.' :: (['3'] ++ '.' :: ['4'])))) =
      true := by
  exact C4_literal_classification.1 ['2'] ['3'] ['4'] (okOct_of_okOctB _ (by decide))
    (okOct_of_okOctB _ (by decide)) (okOct_of_okOctB _ (by decide))
